import Mathlib

/-!
Verification development for the checkout handler in `src/api/pay.js`.

The handler is a single serverless endpoint that, on a POST request,
resolves a catalog item variation, resolves or creates a Square customer,
creates an order, and charges a payment, returning a JSON response.

Shallow embedding choices:
* JS numbers are modelled as exact rationals (`Rat`); `Math.round` is
  modelled as `fun x => (x + 1/2).floor`, the round-half-up rule JS uses
  for finite values.
* The remote Square platform is modelled as an oracle record (`Remote`):
  each remote call site reads a prescribed outcome (success value or a
  structured platform error) from the oracle.  The handler is then a pure
  function from configuration, request and oracle to the HTTP response
  together with the ordered trace of remote calls it issued.
* JS `undefined`/absent fields become `Option`; a thrown platform error
  is the `Except.error` branch of the oracle outcome.
* Strings use Lean `String`; `toLowerCase` is modelled on the ASCII range
  (`Char.toLower`), which covers the whitespace/letter behaviour the
  claims exercise, and the regex `\s` class is modelled by the ASCII
  whitespace characters it matches.
-/

namespace Pay

/-- The ASCII characters matched by the JS regex class `\s`. -/
def isJsWs (c : Char) : Bool :=
  c = ' ' || c = '\t' || c = '\n' || c = '\r' || c = '\x0b' || c = '\x0c'

/-- `String.prototype.toLowerCase`, modelled on the ASCII range. -/
def jsToLower (c : Char) : Char := c.toLower

/-- One pass of `replace(/\s+/g, '_')`: the flag records whether the
previous character was part of a whitespace run already replaced. -/
def replaceWsRunsAux : Bool → List Char → List Char
  | _, [] => []
  | inRun, c :: rest =>
    if isJsWs c then
      (if inRun then [] else ['_']) ++ replaceWsRunsAux true rest
    else
      c :: replaceWsRunsAux false rest

/-- `customerName.toLowerCase().replace(/\s+/g, '_')` (pay.js lines 21 and 35):
the derived customer reference key. -/
def jsRefKey (name : String) : String :=
  String.mk (replaceWsRunsAux false (name.data.map jsToLower))

/-- `String.prototype.trim` over the JS whitespace class. -/
def jsTrim (s : String) : String :=
  String.mk (((s.data.dropWhile (fun c => isJsWs c)).reverse.dropWhile
    (fun c => isJsWs c)).reverse)

/-- `customerName.trim().split(' ')` (pay.js line 31).  Lean `splitOn`
matches the JS semantics of splitting on the exact one-character
separator, including producing `[""]` on the empty string. -/
def nameParts (name : String) : List String := (jsTrim name).splitOn " "

/-- `nameParts[0] || customerName` (pay.js line 33): the first token, with
the full original name as fallback when the token is falsy (empty). -/
def givenNameOf (name : String) : String :=
  match nameParts name with
  | [] => name
  | p :: _ => if p = "" then name else p

/-- `nameParts.slice(1).join(' ') || ''` (pay.js line 34). -/
def familyNameOf (name : String) : String :=
  String.intercalate " " ((nameParts name).drop 1)

/-- `Math.round` on an exact rational: round half toward positive
infinity, the rule JS applies to finite numbers. -/
def jsRound (x : Rat) : Int := (x + 1/2).floor

/-- One entry of a Square structured error list; `detail` may be absent. -/
structure ErrEntry where
  detail : Option String
deriving DecidableEq

/-- A thrown Square platform error: an optional structured `errors` list
plus the generic `message` every JS error carries. -/
structure SqErr where
  errors : Option (List ErrEntry)
  message : String
deriving DecidableEq

/-- `error.errors?.[0]?.detail || error.message` (pay.js line 129): the
first structured error detail when present and truthy, else the generic
message. -/
def errDetail (e : SqErr) : String :=
  match e.errors with
  | some (first :: _) =>
    match first.detail with
    | some d => if d = "" then e.message else d
    | none => e.message
  | _ => e.message

/-- A catalog item variation record (only its id is read). -/
structure Variation where
  id : String
deriving DecidableEq

/-- `item.itemData`, whose `variations` list may be absent. -/
structure ItemData where
  variations : Option (List Variation)
deriving DecidableEq

/-- `response.result.object`, whose `itemData` may be absent. -/
structure CatalogObject where
  itemData : Option ItemData
deriving DecidableEq

/-- A remote customer record (only its id is read). -/
structure Customer where
  id : String
deriving DecidableEq

/-- A created order record (only its id is read). -/
structure OrderRec where
  id : String
deriving DecidableEq

/-- A created payment record (id and status are read). -/
structure PaymentRec where
  id : String
  status : String
deriving DecidableEq

/-- Oracle for the five remote call sites: what each awaited Square call
would return (or throw) during this request. -/
structure Remote where
  catalog : Except SqErr (Option CatalogObject)
  search : Except SqErr (Option (List Customer))
  createCustomerRes : Except SqErr Customer
  createOrderRes : Except SqErr OrderRec
  createPaymentRes : Except SqErr PaymentRec

/-- Environment configuration: `SQUARE_LOCATION_ID` and
`SQUARE_CATALOG_ITEM_ID`. -/
structure Config where
  locationId : String
  catalogItemId : String
deriving DecidableEq

/-- One request line item: `name`, `quantity`, `price`, optional
`comment`. -/
structure ReqItem where
  name : String
  quantity : Nat
  price : Rat
  comment : Option String
deriving DecidableEq

/-- The destructured POST body (pay.js line 74).  `items` is `none` when
the body has no usable items array. -/
structure ReqBody where
  sourceId : String
  amount : Rat
  customerName : String
  pickupDate : String
  items : Option (List ReqItem)
deriving DecidableEq

/-- An incoming HTTP request: its method string and parsed body. -/
structure Request where
  method : String
  body : ReqBody
deriving DecidableEq

/-- A Square money value: integer minor units plus a currency code. -/
structure Money where
  amount : Int
  currency : String
deriving DecidableEq

/-- One line item of the order-creation payload (pay.js lines 89-97). -/
structure OrderLineItem where
  quantity : String
  catalogObjectId : String
  basePriceMoney : Money
  note : String
deriving DecidableEq

/-- The order-creation payload (pay.js lines 85-99). -/
structure OrderPayload where
  locationId : String
  customerId : Option String
  lineItems : List OrderLineItem
  state : String
deriving DecidableEq

/-- The payment-creation payload (pay.js lines 106-117). -/
structure PaymentPayload where
  sourceId : String
  amountMoney : Money
  locationId : String
  orderId : String
  customerId : Option String
  note : String
deriving DecidableEq

/-- A remote call issued by the handler, with its request payload. -/
inductive RemoteCall where
  | retrieveCatalog (objectId : String) (includeRelated : Bool)
  | searchCustomers (refKey : String)
  | createCustomer (givenName familyName refKey : String)
  | createOrder (payload : OrderPayload)
  | createPayment (payload : PaymentPayload)
deriving DecidableEq

/-- Body of a JSON response; the four shapes pay.js sends. -/
inductive RespBody where
  | empty
  | errOnly (error : String)
  | failure (error : String)
  | success (paymentId orderId status : String)
deriving DecidableEq

/-- An HTTP response: status code plus JSON body. -/
structure Response where
  status : Nat
  body : RespBody
deriving DecidableEq

/-- `getItemVariationId` (pay.js lines 47-58): retrieve the configured
catalog object and return the first variation id via the optional chain
`item?.itemData?.variations?.length > 0`; on a thrown remote error the
catch returns `null`.  Result paired with the trace of remote calls
issued. -/
def getItemVariationId (cfg : Config) (r : Remote) : Option String × List RemoteCall :=
  (match r.catalog with
   | .error _ => none
   | .ok obj =>
     match obj with
     | none => none
     | some o =>
       match o.itemData with
       | none => none
       | some d =>
         match d.variations with
         | some (v :: _) => some v.id
         | _ => none,
   [RemoteCall.retrieveCatalog cfg.catalogItemId true])

/-- The pure result component of `getItemVariationId`. -/
def catalogFirstVariation (r : Remote) : Option String :=
  (getItemVariationId ⟨"", ""⟩ r).1

/-- `getOrCreateCustomer` (pay.js lines 15-44): search customers by the
derived reference key; on a match return the first hit's id; otherwise
create a customer from the split name; any thrown error is caught and
yields `null`.  Result paired with the trace of remote calls issued. -/
def getOrCreateCustomer (name : String) (r : Remote) : Option String × List RemoteCall :=
  match r.search with
  | .error _ => (none, [RemoteCall.searchCustomers (jsRefKey name)])
  | .ok custs =>
    match custs with
    | some (c :: _) => (some c.id, [RemoteCall.searchCustomers (jsRefKey name)])
    | _ =>
      match r.createCustomerRes with
      | .error _ =>
        (none, [RemoteCall.searchCustomers (jsRefKey name),
          RemoteCall.createCustomer (givenNameOf name) (familyNameOf name) (jsRefKey name)])
      | .ok c =>
        (some c.id, [RemoteCall.searchCustomers (jsRefKey name),
          RemoteCall.createCustomer (givenNameOf name) (familyNameOf name) (jsRefKey name)])

/-- One order line item built from one request item (pay.js lines 89-97):
stringified quantity, the shared variation id, `round(price*100)` minor
units in USD, and the name with an optional comment suffix (the suffix is
skipped for a falsy, i.e. empty, comment). -/
def buildLineItem (variationId : String) (it : ReqItem) : OrderLineItem :=
  { quantity := toString it.quantity
    catalogObjectId := variationId
    basePriceMoney := { amount := jsRound (it.price * 100), currency := "USD" }
    note := it.name ++ (match it.comment with
      | some c => if c = "" then "" else " - " ++ c
      | none => "") }

/-- The order-creation payload (pay.js lines 86-99). -/
def orderPayload (cfg : Config) (customerId : Option String) (variationId : String)
    (its : List ReqItem) : OrderPayload :=
  { locationId := cfg.locationId
    customerId := customerId
    lineItems := its.map (buildLineItem variationId)
    state := "OPEN" }

/-- The payment-creation payload (pay.js lines 106-117). -/
def paymentPayload (cfg : Config) (body : ReqBody) (customerId : Option String)
    (orderId : String) : PaymentPayload :=
  { sourceId := body.sourceId
    amountMoney := { amount := jsRound (body.amount * 100), currency := "USD" }
    locationId := cfg.locationId
    orderId := orderId
    customerId := customerId
    note := "Pickup: " ++ body.pickupDate }

/-- The V8 TypeError message produced by `items.map` when `items` is
`undefined` (no usable items array in the body); it is caught by the
generic catch and surfaced as `error.message`. -/
def undefinedMapMessage : String :=
  "Cannot read properties of undefined (reading \x27map\x27)"

/-- The exported `handler` (pay.js lines 60-132) as a pure function from
configuration, request and remote oracle to the response and the ordered
trace of remote calls issued.  Mirrors the source control flow: OPTIONS
short-circuit, 405 for other non-POST methods, catalog resolution with a
distinct 500, customer resolution (never fatal), order creation, payment
creation, with the final try/catch surfacing `errDetail`. -/
def handler (cfg : Config) (req : Request) (r : Remote) : Response × List RemoteCall :=
  if req.method = "OPTIONS" then
    (⟨200, RespBody.empty⟩, [])
  else if req.method ≠ "POST" then
    (⟨405, RespBody.errOnly "Method not allowed"⟩, [])
  else
    match (getItemVariationId cfg r).1 with
    | none =>
      (⟨500, RespBody.failure "Item variation not configured"⟩,
       (getItemVariationId cfg r).2)
    | some variationId =>
      match req.body.items with
      | none =>
        (⟨500, RespBody.failure undefinedMapMessage⟩,
         (getItemVariationId cfg r).2 ++ (getOrCreateCustomer req.body.customerName r).2)
      | some its =>
        match r.createOrderRes with
        | .error e =>
          (⟨500, RespBody.failure (errDetail e)⟩,
           (getItemVariationId cfg r).2 ++ (getOrCreateCustomer req.body.customerName r).2
             ++ [RemoteCall.createOrder
                  (orderPayload cfg (getOrCreateCustomer req.body.customerName r).1 variationId its)])
        | .ok order =>
          match r.createPaymentRes with
          | .error e =>
            (⟨500, RespBody.failure (errDetail e)⟩,
             (getItemVariationId cfg r).2 ++ (getOrCreateCustomer req.body.customerName r).2
               ++ [RemoteCall.createOrder
                    (orderPayload cfg (getOrCreateCustomer req.body.customerName r).1 variationId its),
                  RemoteCall.createPayment
                    (paymentPayload cfg req.body (getOrCreateCustomer req.body.customerName r).1 order.id)])
          | .ok pay =>
            (⟨200, RespBody.success pay.id order.id pay.status⟩,
             (getItemVariationId cfg r).2 ++ (getOrCreateCustomer req.body.customerName r).2
               ++ [RemoteCall.createOrder
                    (orderPayload cfg (getOrCreateCustomer req.body.customerName r).1 variationId its),
                  RemoteCall.createPayment
                    (paymentPayload cfg req.body (getOrCreateCustomer req.body.customerName r).1 order.id)])

/-- Amended spec wording of the key derivation: lowercase the name, then
replace each maximal whitespace run (leading, internal, or trailing) by a
single underscore, with no trimming. -/
def collapseWsRuns : List Char → List Char
  | [] => []
  | c :: cs =>
    if isJsWs c then '_' :: collapseWsRuns (cs.dropWhile (fun d => isJsWs d))
    else c :: collapseWsRuns cs
termination_by l => l.length
decreasing_by
  · exact Nat.lt_succ_of_le (List.dropWhile_sublist _).length_le
  · exact Nat.lt_succ_self _

/-- The amended-spec key: lowercase, whitespace runs become single
underscores, no trimming. -/
def specRefKey (name : String) : String :=
  String.mk (collapseWsRuns (name.data.map jsToLower))

/-- Spec wording of the catalog variation resolution: on a successful
retrieval, the head of the configured item's variation list (an absent
list counting as empty); on a remote failure, unresolved. -/
def specFirstVariation (r : Remote) : Option String :=
  match r.catalog with
  | .error _ => none
  | .ok obj =>
    ((obj.bind (fun o => o.itemData)).bind
      (fun d => (d.variations.getD []).head?)).map (fun v => v.id)

/-- USD-only predicate on one remote call: any money value it carries has
currency "USD". -/
def callUsdOnly : RemoteCall → Prop
  | RemoteCall.createOrder p => ∀ li ∈ p.lineItems, li.basePriceMoney.currency = "USD"
  | RemoteCall.createPayment q => q.amountMoney.currency = "USD"
  | _ => True

/-- Configuration fixture for concrete witnesses. -/
def cfg0 : Config := ⟨"LOC", "ITEM"⟩

/-- Remote oracle fixture where every call succeeds: one variation VAR1,
no existing customer match, customer CUST1 created, order ORD1, payment
PAY1 completed. -/
def okRemote : Remote :=
  { catalog := Except.ok (some ⟨some ⟨some [⟨"VAR1"⟩]⟩⟩)
    search := Except.ok (some [])
    createCustomerRes := Except.ok ⟨"CUST1"⟩
    createOrderRes := Except.ok ⟨"ORD1"⟩
    createPaymentRes := Except.ok ⟨"PAY1", "COMPLETED"⟩ }

/-- Line items fixture. -/
def items0 : List ReqItem := [⟨"Latte", 2, 5, none⟩]

/-- POST request fixture. -/
def req0 : Request :=
  { method := "POST"
    body := { sourceId := "tok1", amount := 10, customerName := "Ann Lee"
              pickupDate := "2024-06-01", items := some items0 } }

/-- A structured platform error fixture. -/
def sqErr0 : SqErr := ⟨some [⟨some "CARD_DECLINED"⟩], "generic"⟩

/-- Oracle fixture whose catalog retrieval throws. -/
def catFailRemote : Remote := { okRemote with catalog := Except.error sqErr0 }

/-- Oracle fixture whose customer search throws. -/
def custFailRemote : Remote := { okRemote with search := Except.error sqErr0 }

/-- Oracle fixture whose order creation throws. -/
def orderFailRemote : Remote := { okRemote with createOrderRes := Except.error sqErr0 }

/-- Oracle fixture whose payment creation throws. -/
def payFailRemote : Remote := { okRemote with createPaymentRes := Except.error sqErr0 }

/-- GET request fixture. -/
def reqGet : Request := { req0 with method := "GET" }

/-- POST request fixture with no items array in the body. -/
def reqNoItems : Request :=
  { method := "POST"
    body := { sourceId := "tok1", amount := 10, customerName := "Ann Lee"
              pickupDate := "2024-06-01", items := none } }

theorem mem_getItemVariationId_trace (cfg : Config) (r : Remote) (c : RemoteCall)
    (h : c ∈ (getItemVariationId cfg r).2) :
    c = RemoteCall.retrieveCatalog cfg.catalogItemId true := by
  simpa [getItemVariationId] using h

theorem mem_getOrCreateCustomer_trace (name : String) (r : Remote) (c : RemoteCall)
    (h : c ∈ (getOrCreateCustomer name r).2) :
    c = RemoteCall.searchCustomers (jsRefKey name) ∨
    c = RemoteCall.createCustomer (givenNameOf name) (familyNameOf name) (jsRefKey name) := by
  unfold getOrCreateCustomer at h
  rcases hs : r.search with e | custs
  · rw [hs] at h; simp at h; simp [h]
  · rw [hs] at h
    rcases custs with _ | l
    · rcases hc : r.createCustomerRes with e | cu <;> rw [hc] at h <;> simp at h <;>
        rcases h with h | h <;> simp [h]
    · rcases l with _ | ⟨cu, tl⟩
      · rcases hc : r.createCustomerRes with e | cu <;> rw [hc] at h <;> simp at h <;>
          rcases h with h | h <;> simp [h]
      · simp at h; simp [h]

theorem mem_handler_trace (cfg : Config) (req : Request) (r : Remote) (c : RemoteCall)
    (h : c ∈ (handler cfg req r).2) :
    c = RemoteCall.retrieveCatalog cfg.catalogItemId true ∨
    c ∈ (getOrCreateCustomer req.body.customerName r).2 ∨
    (∃ vid its, (getItemVariationId cfg r).1 = some vid ∧ req.body.items = some its ∧
       c = RemoteCall.createOrder
         (orderPayload cfg (getOrCreateCustomer req.body.customerName r).1 vid its)) ∨
    (∃ vid its order, (getItemVariationId cfg r).1 = some vid ∧ req.body.items = some its ∧
       r.createOrderRes = Except.ok order ∧
       c = RemoteCall.createPayment
         (paymentPayload cfg req.body (getOrCreateCustomer req.body.customerName r).1 order.id)) := by
  unfold handler at h
  by_cases hopt : req.method = "OPTIONS"
  · rw [if_pos hopt] at h; simp at h
  · rw [if_neg hopt] at h
    by_cases hpost : req.method = "POST"
    · rw [if_neg (fun hne => hne hpost)] at h
      rcases hv : (getItemVariationId cfg r).1 with _ | vid <;> rw [hv] at h
      · simp at h
        exact Or.inl (mem_getItemVariationId_trace cfg r c h)
      · rcases hi : req.body.items with _ | its <;> rw [hi] at h
        · simp at h
          rcases h with h | h
          · exact Or.inl (mem_getItemVariationId_trace cfg r c h)
          · exact Or.inr (Or.inl h)
        · rcases ho : r.createOrderRes with e | order <;> rw [ho] at h
          · simp at h
            rcases h with h | h | h
            · exact Or.inl (mem_getItemVariationId_trace cfg r c h)
            · exact Or.inr (Or.inl h)
            · exact Or.inr (Or.inr (Or.inl ⟨vid, its, rfl, rfl, h⟩))
          · rcases hp : r.createPaymentRes with e | pay <;> rw [hp] at h <;>
              simp at h <;>
              rcases h with h | h | h | h
            · exact Or.inl (mem_getItemVariationId_trace cfg r c h)
            · exact Or.inr (Or.inl h)
            · exact Or.inr (Or.inr (Or.inl ⟨vid, its, rfl, rfl, h⟩))
            · exact Or.inr (Or.inr (Or.inr ⟨vid, its, order, rfl, rfl, rfl, h⟩))
            · exact Or.inl (mem_getItemVariationId_trace cfg r c h)
            · exact Or.inr (Or.inl h)
            · exact Or.inr (Or.inr (Or.inl ⟨vid, its, rfl, rfl, h⟩))
            · exact Or.inr (Or.inr (Or.inr ⟨vid, its, order, rfl, rfl, rfl, h⟩))
    · rw [if_pos hpost] at h; simp at h

theorem search_mem_getOrCreateCustomer_trace (name : String) (r : Remote) :
    RemoteCall.searchCustomers (jsRefKey name) ∈ (getOrCreateCustomer name r).2 := by
  unfold getOrCreateCustomer
  rcases r.search with e | custs
  · simp
  · rcases custs with _ | l
    · rcases r.createCustomerRes with e | cu <;> simp
    · rcases l with _ | ⟨cu, tl⟩
      · rcases r.createCustomerRes with e | cu <;> simp
      · simp

theorem getOrCreateCustomer_trace_head (name : String) (r : Remote) :
    (getOrCreateCustomer name r).2.head? = some (RemoteCall.searchCustomers (jsRefKey name)) := by
  unfold getOrCreateCustomer
  rcases r.search with e | custs
  · rfl
  · rcases custs with _ | l
    · rcases r.createCustomerRes with e | cu <;> rfl
    · rcases l with _ | ⟨cu, tl⟩
      · rcases r.createCustomerRes with e | cu <;> rfl
      · rfl

theorem replaceWsRunsAux_eq (l : List Char) :
    replaceWsRunsAux false l = collapseWsRuns l ∧
    replaceWsRunsAux true l = collapseWsRuns (l.dropWhile (fun d => isJsWs d)) := by
  induction l with
  | nil => constructor <;> simp [replaceWsRunsAux, collapseWsRuns]
  | cons c cs ih =>
    by_cases h : isJsWs c = true
    · constructor
      · simp [replaceWsRunsAux, collapseWsRuns, h, List.dropWhile, ih.2]
      · simp [replaceWsRunsAux, List.dropWhile, h, ih.2]
    · constructor
      · simp [replaceWsRunsAux, collapseWsRuns, h, ih.1]
      · simp [replaceWsRunsAux, List.dropWhile, h, collapseWsRuns, ih.1]

theorem jsRefKey_eq_specRefKey (name : String) : jsRefKey name = specRefKey name := by
  unfold jsRefKey specRefKey
  rw [(replaceWsRunsAux_eq (name.data.map jsToLower)).1]

/-- C1: in every order-creation call the handler issues, each line item's
base price in minor units is the item's `price * 100` rounded half-up
(`jsRound`), and in every payment-creation call the amount is the request
`amount * 100` rounded the same way; in particular price `12.345` yields
`1235` minor units and amount `9.999` yields `1000`. -/
theorem c1_minor_unit_rounding :
    (∀ cfg req r p, RemoteCall.createOrder p ∈ (handler cfg req r).2 →
      ∃ its, req.body.items = some its ∧
        p.lineItems.map (fun li => li.basePriceMoney.amount)
          = its.map (fun it => jsRound (it.price * 100))) ∧
    (∀ cfg req r q, RemoteCall.createPayment q ∈ (handler cfg req r).2 →
      q.amountMoney.amount = jsRound (req.body.amount * 100)) ∧
    jsRound ((12.345 : Rat) * 100) = 1235 ∧ jsRound ((9.999 : Rat) * 100) = 1000 := by
  refine ⟨?_, ?_, by norm_num [jsRound, Rat.floor], by norm_num [jsRound, Rat.floor]⟩
  · intro cfg req r p h
    rcases mem_handler_trace cfg req r _ h with h1 | h1 | ⟨vid, its, hv, hi, h1⟩ |
      ⟨vid, its, order, hv, hi, ho, h1⟩
    · simp at h1
    · rcases mem_getOrCreateCustomer_trace _ _ _ h1 with h2 | h2 <;> simp at h2
    · have hp : p = orderPayload cfg (getOrCreateCustomer req.body.customerName r).1 vid its := by
        simpa using h1
      subst hp
      refine ⟨its, hi, ?_⟩
      rw [orderPayload, List.map_map]
      rfl
    · simp at h1
  · intro cfg req r q h
    rcases mem_handler_trace cfg req r _ h with h1 | h1 | ⟨vid, its, hv, hi, h1⟩ |
      ⟨vid, its, order, hv, hi, ho, h1⟩
    · simp at h1
    · rcases mem_getOrCreateCustomer_trace _ _ _ h1 with h2 | h2 <;> simp at h2
    · simp at h1
    · have hq : q = paymentPayload cfg req.body
          (getOrCreateCustomer req.body.customerName r).1 order.id := by
        simpa using h1
      subst hq
      rfl

/-- Witness for C1: at a concrete successful checkout the issued order
and payment calls carry the rounded minor-unit amounts. -/
theorem c1_minor_unit_rounding_witness :
    (∃ its, req0.body.items = some its ∧
      ((orderPayload cfg0 (some "CUST1") "VAR1" items0).lineItems.map
        (fun li => li.basePriceMoney.amount)) = its.map (fun it => jsRound (it.price * 100))) ∧
    (paymentPayload cfg0 req0.body (some "CUST1") "ORD1").amountMoney.amount
      = jsRound (req0.body.amount * 100) := by
  constructor
  · exact c1_minor_unit_rounding.1 cfg0 req0 okRemote _
      (by simp [handler, cfg0, req0, okRemote, getItemVariationId, getOrCreateCustomer])
  · exact c1_minor_unit_rounding.2.1 cfg0 req0 okRemote _
      (by simp [handler, cfg0, req0, okRemote, getItemVariationId, getOrCreateCustomer])

/-- C2 counterexample: the code derives the reference key with
`toLowerCase().replace(/\s+/g, '_')` and never trims, so the name
"  Bob   Lee " derives "_bob_lee_", not the "bob_lee" the claim states. -/
theorem c2_refkey_counterexample :
    jsRefKey "  Bob   Lee " = "_bob_lee_" ∧ jsRefKey "  Bob   Lee " ≠ "bob_lee" := by
  constructor <;> decide

/-- C2 (amended): the derived customer reference key is the name
lowercased with every whitespace run — leading, internal, or trailing —
collapsed to a single underscore and no trimming; "Jane Q. Public"
derives "jane_q._public" and "  Bob   Lee " derives "_bob_lee_"; the same
key is used for the exact-match search (the first issued call) and for
any creation request. -/
theorem c2_refkey_amended :
    (∀ name r, (getOrCreateCustomer name r).2.head?
        = some (RemoteCall.searchCustomers (jsRefKey name)) ∧
      ∀ g f k, RemoteCall.createCustomer g f k ∈ (getOrCreateCustomer name r).2 →
        k = jsRefKey name) ∧
    (∀ name, jsRefKey name = specRefKey name) ∧
    jsRefKey "Jane Q. Public" = "jane_q._public" ∧
    jsRefKey "  Bob   Lee " = "_bob_lee_" := by
  refine ⟨?_, jsRefKey_eq_specRefKey, by decide, by decide⟩
  intro name r
  refine ⟨getOrCreateCustomer_trace_head name r, ?_⟩
  intro g f k h
  rcases mem_getOrCreateCustomer_trace _ _ _ h with h2 | h2 <;> simp at h2
  exact h2.2.2

/-- Witness for C2 (amended): at the all-success oracle for "Ann Lee"
the creation call carries the same derived key as the search. -/
theorem c2_refkey_amended_witness :
    RemoteCall.createCustomer (givenNameOf "Ann Lee") (familyNameOf "Ann Lee")
        (jsRefKey "Ann Lee") ∈ (getOrCreateCustomer "Ann Lee" okRemote).2 ∧
    jsRefKey "Ann Lee" = jsRefKey "Ann Lee" := by
  have hmem : RemoteCall.createCustomer (givenNameOf "Ann Lee") (familyNameOf "Ann Lee")
      (jsRefKey "Ann Lee") ∈ (getOrCreateCustomer "Ann Lee" okRemote).2 := by
    simp [getOrCreateCustomer, okRemote]
  exact ⟨hmem, (c2_refkey_amended.1 "Ann Lee" okRemote).2 _ _ _ hmem⟩

/-- C3: on a POST whose catalog variation resolution is unresolved (the
remote call threw, or the variation chain is empty), the handler answers
500 with error "Item variation not configured" and the only remote call
in the trace is the catalog retrieval: no customer, order, or payment
call is made. -/
theorem c3_catalog_unresolved_aborts (cfg : Config) (req : Request) (r : Remote)
    (hm : req.method = "POST") (hv : (getItemVariationId cfg r).1 = none) :
    handler cfg req r
      = (⟨500, RespBody.failure "Item variation not configured"⟩,
         [RemoteCall.retrieveCatalog cfg.catalogItemId true]) := by
  unfold handler
  rw [hv]
  simp [hm, getItemVariationId]

/-- Witness for C3 at a concrete request with a failing catalog call. -/
theorem c3_catalog_unresolved_aborts_witness :
    req0.method = "POST" ∧ (getItemVariationId cfg0 catFailRemote).1 = none ∧
    handler cfg0 req0 catFailRemote
      = (⟨500, RespBody.failure "Item variation not configured"⟩,
         [RemoteCall.retrieveCatalog cfg0.catalogItemId true]) :=
  ⟨rfl, rfl, c3_catalog_unresolved_aborts cfg0 req0 catFailRemote rfl rfl⟩

/-- C4: on a POST where order creation throws, the handler responds 500
with the platform's first structured error detail (or the generic message
when the structured list is absent), and no payment call appears in the
trace. -/
theorem c4_order_failure_aborts (cfg : Config) (req : Request) (r : Remote) (e : SqErr)
    (hm : req.method = "POST")
    (hv : ∃ vid, (getItemVariationId cfg r).1 = some vid)
    (hi : ∃ its, req.body.items = some its)
    (ho : r.createOrderRes = Except.error e) :
    (handler cfg req r).1 = ⟨500, RespBody.failure (errDetail e)⟩ ∧
    (∀ q, RemoteCall.createPayment q ∉ (handler cfg req r).2) ∧
    (∀ d rest, e.errors = some (⟨some d⟩ :: rest) → d ≠ "" → errDetail e = d) ∧
    (e.errors = none → errDetail e = e.message) := by
  obtain ⟨vid, hv⟩ := hv
  obtain ⟨its, hi⟩ := hi
  have hh : handler cfg req r
      = (⟨500, RespBody.failure (errDetail e)⟩,
         [RemoteCall.retrieveCatalog cfg.catalogItemId true]
           ++ (getOrCreateCustomer req.body.customerName r).2
           ++ [RemoteCall.createOrder
                (orderPayload cfg (getOrCreateCustomer req.body.customerName r).1 vid its)]) := by
    unfold handler
    rw [hv]
    simp [hm, hi, ho, getItemVariationId]
  refine ⟨by rw [hh], ?_, ?_, ?_⟩
  · intro q hq
    rw [hh] at hq
    simp at hq
    exact absurd (mem_getOrCreateCustomer_trace _ _ _ hq) (by simp)
  · intro d rest hd hne
    simp [errDetail, hd, hne]
  · intro hd
    simp [errDetail, hd]

/-- Witness for C4 at a concrete request whose order creation throws. -/
theorem c4_order_failure_aborts_witness :
    orderFailRemote.createOrderRes = Except.error sqErr0 ∧
    (handler cfg0 req0 orderFailRemote).1 = ⟨500, RespBody.failure (errDetail sqErr0)⟩ ∧
    ∀ q, RemoteCall.createPayment q ∉ (handler cfg0 req0 orderFailRemote).2 := by
  have h := c4_order_failure_aborts cfg0 req0 orderFailRemote sqErr0 rfl
    ⟨"VAR1", rfl⟩ ⟨items0, rfl⟩ rfl
  exact ⟨rfl, h.1, h.2.1⟩

/-- C5: on a POST where order creation succeeded and payment creation
throws, the handler responds 500 with the thrown detail, and the trace
ends with the payment call referencing the created order: the service
issues no further call touching that order (no cancel, no rollback). -/
theorem c5_payment_failure_leaves_order (cfg : Config) (req : Request) (r : Remote)
    (e : SqErr) (order : OrderRec) (hm : req.method = "POST")
    (hv : ∃ vid, (getItemVariationId cfg r).1 = some vid)
    (hi : ∃ its, req.body.items = some its)
    (ho : r.createOrderRes = Except.ok order)
    (hp : r.createPaymentRes = Except.error e) :
    (handler cfg req r).1 = ⟨500, RespBody.failure (errDetail e)⟩ ∧
    ∃ op pp, (handler cfg req r).2
        = [RemoteCall.retrieveCatalog cfg.catalogItemId true]
            ++ (getOrCreateCustomer req.body.customerName r).2
            ++ [RemoteCall.createOrder op, RemoteCall.createPayment pp]
      ∧ pp.orderId = order.id := by
  obtain ⟨vid, hv⟩ := hv
  obtain ⟨its, hi⟩ := hi
  have hh : handler cfg req r
      = (⟨500, RespBody.failure (errDetail e)⟩,
         [RemoteCall.retrieveCatalog cfg.catalogItemId true]
           ++ (getOrCreateCustomer req.body.customerName r).2
           ++ [RemoteCall.createOrder
                (orderPayload cfg (getOrCreateCustomer req.body.customerName r).1 vid its),
              RemoteCall.createPayment
                (paymentPayload cfg req.body (getOrCreateCustomer req.body.customerName r).1 order.id)]) := by
    unfold handler
    rw [hv]
    simp [hm, hi, ho, hp, getItemVariationId]
  exact ⟨by rw [hh], _, _, by rw [hh], rfl⟩

/-- Witness for C5 at a concrete request whose payment creation throws. -/
theorem c5_payment_failure_leaves_order_witness :
    payFailRemote.createOrderRes = Except.ok ⟨"ORD1"⟩ ∧
    payFailRemote.createPaymentRes = Except.error sqErr0 ∧
    (handler cfg0 req0 payFailRemote).1 = ⟨500, RespBody.failure (errDetail sqErr0)⟩ := by
  have h := c5_payment_failure_leaves_order cfg0 req0 payFailRemote sqErr0 ⟨"ORD1"⟩ rfl
    ⟨"VAR1", rfl⟩ ⟨items0, rfl⟩ rfl rfl
  exact ⟨rfl, rfl, h.1⟩

/-- C6: on a POST past catalog resolution, a remote failure during the
customer search, or during creation after an empty or absent search
result, makes the resolver return the unresolved value `none`, and the
order-creation call still proceeds with no customer attached. -/
theorem c6_customer_failure_nonfatal (cfg : Config) (req : Request) (r : Remote)
    (its : List ReqItem) (hm : req.method = "POST")
    (hv : ∃ vid, (getItemVariationId cfg r).1 = some vid)
    (hi : req.body.items = some its)
    (hc : (∃ e, r.search = Except.error e) ∨
      ((r.search = Except.ok none ∨ r.search = Except.ok (some [])) ∧
        ∃ e, r.createCustomerRes = Except.error e)) :
    (getOrCreateCustomer req.body.customerName r).1 = none ∧
    ∃ op, RemoteCall.createOrder op ∈ (handler cfg req r).2 ∧ op.customerId = none := by
  obtain ⟨vid, hv⟩ := hv
  have hnone : (getOrCreateCustomer req.body.customerName r).1 = none := by
    unfold getOrCreateCustomer
    rcases hc with ⟨e, hs⟩ | ⟨hs | hs, e, hcr⟩
    · simp [hs]
    · simp [hs, hcr]
    · simp [hs, hcr]
  refine ⟨hnone, orderPayload cfg none vid its, ?_, rfl⟩
  rcases ho : r.createOrderRes with e2 | order
  · unfold handler
    rw [hv]
    simp [hm, hi, ho, hnone, getItemVariationId]
  · rcases hp : r.createPaymentRes with e2 | pay <;>
      · unfold handler
        rw [hv]
        simp [hm, hi, ho, hp, hnone, getItemVariationId]

/-- Witness for C6 at a concrete request whose customer search throws. -/
theorem c6_customer_failure_nonfatal_witness :
    custFailRemote.search = Except.error sqErr0 ∧
    (getOrCreateCustomer req0.body.customerName custFailRemote).1 = none ∧
    ∃ op, RemoteCall.createOrder op ∈ (handler cfg0 req0 custFailRemote).2 ∧
      op.customerId = none := by
  have h := c6_customer_failure_nonfatal cfg0 req0 custFailRemote items0 rfl
    ⟨"VAR1", rfl⟩ rfl (Or.inl ⟨sqErr0, rfl⟩)
  exact ⟨rfl, h.1, h.2⟩

/-- C7: the catalog variation resolver returns the identifier of the
first entry of the configured item's variation list when that list is
non-empty, and the unresolved value `none` when the list is empty or
absent or the remote call failed; its result is a function of the remote
catalog state only — the request is not even a parameter. -/
theorem c7_first_variation_static (cfg : Config) (r : Remote) :
    getItemVariationId cfg r
      = (specFirstVariation r, [RemoteCall.retrieveCatalog cfg.catalogItemId true]) := by
  unfold getItemVariationId specFirstVariation
  rcases r.catalog with e | obj
  · rfl
  · rcases obj with _ | o
    · rfl
    · rcases o with ⟨idata⟩
      rcases idata with _ | d
      · rfl
      · rcases d with ⟨vars⟩
        rcases vars with _ | l
        · rfl
        · rcases l with _ | ⟨v, tl⟩ <;> rfl

/-- C8: a request whose method is neither POST nor OPTIONS gets status
405 with body error "Method not allowed", and the remote-call trace is
empty. -/
theorem c8_method_not_allowed (cfg : Config) (req : Request) (r : Remote)
    (h1 : req.method ≠ "POST") (h2 : req.method ≠ "OPTIONS") :
    handler cfg req r = (⟨405, RespBody.errOnly "Method not allowed"⟩, []) := by
  unfold handler
  rw [if_neg h2, if_pos h1]

/-- Witness for C8 at a concrete GET request. -/
theorem c8_method_not_allowed_witness :
    reqGet.method ≠ "POST" ∧ reqGet.method ≠ "OPTIONS" ∧
    handler cfg0 reqGet okRemote = (⟨405, RespBody.errOnly "Method not allowed"⟩, []) :=
  ⟨by decide, by decide,
   c8_method_not_allowed cfg0 reqGet okRemote (by decide) (by decide)⟩

/-- C9: every money value the handler sends — each line item's
basePriceMoney and the payment's amountMoney — carries the fixed currency
"USD", for every request and oracle. -/
theorem c9_currency_always_usd (cfg : Config) (req : Request) (r : Remote)
    (c : RemoteCall) (h : c ∈ (handler cfg req r).2) : callUsdOnly c := by
  rcases mem_handler_trace cfg req r c h with h1 | h1 | ⟨vid, its, hv, hi, h1⟩ |
    ⟨vid, its, order, hv, hi, ho, h1⟩
  · subst h1; simp [callUsdOnly]
  · rcases mem_getOrCreateCustomer_trace _ _ _ h1 with h2 | h2 <;> subst h2 <;> simp [callUsdOnly]
  · subst h1
    simp only [callUsdOnly, orderPayload]
    intro li hli
    obtain ⟨it, hit, rfl⟩ := List.mem_map.mp hli
    rfl
  · subst h1
    simp [callUsdOnly, paymentPayload]

/-- Witness for C9 at the concrete successful checkout's payment call. -/
theorem c9_currency_always_usd_witness :
    (RemoteCall.createPayment (paymentPayload cfg0 req0.body (some "CUST1") "ORD1")
        ∈ (handler cfg0 req0 okRemote).2) ∧
    callUsdOnly (RemoteCall.createPayment (paymentPayload cfg0 req0.body (some "CUST1") "ORD1")) := by
  have hmem : RemoteCall.createPayment (paymentPayload cfg0 req0.body (some "CUST1") "ORD1")
      ∈ (handler cfg0 req0 okRemote).2 := by
    simp [handler, cfg0, req0, okRemote, getItemVariationId, getOrCreateCustomer]
  exact ⟨hmem, c9_currency_always_usd cfg0 req0 okRemote _ hmem⟩

/-- C10: a POST whose body has no usable items array is not rejected up
front: the catalog call and the customer search still happen, the failure
surfaces when the order line items are built, and the generic catch
reports it as a 500 failure body (with the TypeError message), never a
4xx. -/
theorem c10_missing_items_late_failure (cfg : Config) (req : Request) (r : Remote)
    (vid : String) (hm : req.method = "POST")
    (hv : (getItemVariationId cfg r).1 = some vid)
    (hi : req.body.items = none) :
    handler cfg req r
      = (⟨500, RespBody.failure undefinedMapMessage⟩,
         [RemoteCall.retrieveCatalog cfg.catalogItemId true]
           ++ (getOrCreateCustomer req.body.customerName r).2) ∧
    RemoteCall.searchCustomers (jsRefKey req.body.customerName) ∈ (handler cfg req r).2 ∧
    (handler cfg req r).1.status = 500 := by
  have hh : handler cfg req r
      = (⟨500, RespBody.failure undefinedMapMessage⟩,
         [RemoteCall.retrieveCatalog cfg.catalogItemId true]
           ++ (getOrCreateCustomer req.body.customerName r).2) := by
    unfold handler
    rw [hv]
    simp [hm, hi, getItemVariationId]
  refine ⟨hh, ?_, by rw [hh]⟩
  rw [hh]
  simp
  exact search_mem_getOrCreateCustomer_trace _ _

/-- Witness for C10 at a concrete POST with a missing items array. -/
theorem c10_missing_items_late_failure_witness :
    reqNoItems.body.items = none ∧
    (handler cfg0 reqNoItems okRemote).1.status = 500 ∧
    RemoteCall.searchCustomers (jsRefKey reqNoItems.body.customerName)
      ∈ (handler cfg0 reqNoItems okRemote).2 := by
  have h := c10_missing_items_late_failure cfg0 reqNoItems okRemote "VAR1" rfl rfl rfl
  exact ⟨rfl, h.2.2, h.2.1⟩

end Pay
